import Mathlib

/-!
Shallow embedding of the kanji-colorize Anki addon
(src/anki/kanji_colorizer.py) and verification of its specification.

Python strings are modelled as Lean `String`; Python characters as Lean
`Char` (a Unicode scalar value, matching `ord`). Configuration records
(JSON objects) are modelled as association lists from keys to a small
JSON-like value type. Python exceptions are modelled with `Except String`
where the error string names the exception class. External services
(the host Anki application and the external renderer library) are
modelled as an explicit environment of functions.
-/

namespace KanjiColorize

/-- JSON-like configuration value, as occurring in the addon config. -/
inductive ConfigValue where
  | str (s : String)
  | bool (b : Bool)
  | int (n : Int)
  | null
deriving DecidableEq, Repr

/-- A configuration record: an association list of keys to values. -/
def Config := List (String × ConfigValue)

/-- Dictionary lookup, modelling Python `k in data` plus `data[k]`. -/
def Config.lookup (data : Config) (k : String) : Option ConfigValue :=
  (List.find? (fun kv => kv.1 = k) data).map (fun kv => kv.2)

/-- Python `str(v)` on a configuration value. -/
def pyStr : ConfigValue → String
  | .str s => s
  | .bool b => if b then "True" else "False"
  | .int n => toString n
  | .null => "None"

/-- Python truthiness of a configuration value. -/
def truthy : ConfigValue → Bool
  | .str s => s ≠ ""
  | .bool b => b
  | .int n => n ≠ 0
  | .null => false

/-- Python `s.lower()`, applied characterwise (the same case mapping as
`String.toLower`, in a formulation that reduces in the kernel). -/
def pyLower (s : String) : String := ⟨s.data.map Char.toLower⟩

/-- Embeds `make_kanji_colorizer` (kanji_colorizer.py lines 49-62): builds
the option string handed to the external `KanjiColorizer` constructor.
`data["mode"]` etc. raise `KeyError` when the key is absent, and
`config += data["mode"]` raises `TypeError` when the value is not a
string. -/
def make_kanji_colorizer (data : Config) : Except String String := do
  let mode ← match data.lookup "mode" with
    | none => .error "KeyError"
    | some (.str s) => .ok s
    | some _ => .error "TypeError"
  let groupMode ← match data.lookup "group-mode" with
    | none => .error "KeyError"
    | some v => .ok v
  let saturation ← match data.lookup "saturation" with
    | none => .error "KeyError"
    | some v => .ok v
  let value ← match data.lookup "value" with
    | none => .error "KeyError"
    | some v => .ok v
  let imageSize ← match data.lookup "image-size" with
    | none => .error "KeyError"
    | some v => .ok v
  .ok ("--mode " ++ mode
    ++ (if truthy groupMode then " --group-mode " else "")
    ++ " --saturation " ++ pyStr saturation
    ++ " --value " ++ pyStr value
    ++ " --image-size " ++ pyStr imageSize)

/-- The parsed profile settings (class `Profile`, kanji_colorizer.py).
`colorizer_config` stands for the `KanjiColorizer` instance, identified
with the option string it was constructed from. -/
structure Profile where
  colorizer_config : String
  model_name_substr : String
  src_field : String
  dst_field : String
  overwrite_dest : Bool
  diagrammed_characters : ConfigValue
deriving DecidableEq, Repr

/-- The defaulted parse of the `model` key (kanji_colorizer.py line 68). -/
def parse_model_name_substr (data : Config) : String :=
  match data.lookup "model" with
  | some (.str s) => pyLower s
  | _ => "japanese"

/-- The defaulted parse of the `src-field` key (line 69). -/
def parse_src_field (data : Config) : String :=
  match data.lookup "src-field" with
  | some (.str s) => s
  | _ => "Kanji"

/-- The defaulted parse of the `dst-field` key (line 71). -/
def parse_dst_field (data : Config) : String :=
  match data.lookup "dst-field" with
  | some (.str s) => s
  | _ => "Diagram"

/-- The defaulted parse of the `overwrite-dest` key (line 73). -/
def parse_overwrite_dest (data : Config) : Bool :=
  match data.lookup "overwrite-dest" with
  | some (.bool b) => b
  | _ => true

/-- Embeds `Profile.__init__` (kanji_colorizer.py lines 65-78): the keys
`model`, `src-field`, `dst-field` and `overwrite-dest` are defaulted when
missing or of the wrong type, while `data["diagrammed-characters"]` is an
unguarded subscript that raises `KeyError` when the key is absent (as do
the renderer option keys inside `make_kanji_colorizer`, which
`__init__` invokes first). -/
def mkProfile (data : Config) : Except String Profile :=
  match make_kanji_colorizer data with
  | .error e => .error e
  | .ok cfg =>
    match data.lookup "diagrammed-characters" with
    | none => .error "KeyError"
    | some dc =>
      .ok ⟨cfg, parse_model_name_substr data, parse_src_field data,
           parse_dst_field data, parse_overwrite_dest data, dc⟩

/-- Embeds `is_kanji` (kanji_colorizer.py lines 156-160): the code point of the
character lies in the inclusive range [19968, 40879]. -/
def is_kanji (c : Char) : Bool :=
  19968 ≤ c.toNat && c.toNat ≤ 40879

/-- Embeds `Profile.characters_to_colorize` (kanji_colorizer.py lines
92-107). Python string equality `self.diagrammed_characters == "all"` is
false whenever the stored value is not a string. -/
def Profile.characters_to_colorize (p : Profile) (s : String) : List Char :=
  if p.diagrammed_characters = .str "all" then
    s.data
  else if p.diagrammed_characters = .str "kanji" then
    s.data.filter is_kanji
  else
    let just_kanji := s.data.filter is_kanji
    if just_kanji.length ≥ 1 then just_kanji else s.data

/-- A field of a note model (one entry of `model["flds"]`). -/
structure ModelField where
  name : String
deriving DecidableEq, Repr

/-- A note model descriptor, as read by the addon: its name and its
field list. `mw.col.models.fieldNames(model)` returns the names of
`model["flds"]` in order. -/
structure NoteModel where
  name : String
  flds : List ModelField
deriving DecidableEq, Repr

/-- The field names of a model, modelling the host call
`mw.col.models.fieldNames(model)`. -/
def NoteModel.fieldNames (m : NoteModel) : List String :=
  m.flds.map ModelField.name

/-- A note: named field values, an id (0 when not yet persisted) and its
model. Owned by the host application; the addon reads and writes fields
by name. -/
structure Note where
  fields : List (String × String)
  id : Nat
  model : NoteModel
deriving DecidableEq, Repr

/-- Python `note[field]`: `none` models a raised `KeyError`. -/
def Note.getField (n : Note) (f : String) : Option String :=
  (List.find? (fun kv => kv.1 = f) n.fields).map (fun kv => kv.2)

/-- Python `note[field] = v`: overwrite the value of each binding of `f`. -/
def Note.setField (n : Note) (f : String) (v : String) : Note :=
  { n with fields := n.fields.map (fun kv => if kv.1 = f then (kv.1, v) else kv) }

/-- Embeds `Profile.model_is_correct_type` (kanji_colorizer.py lines
80-90): true iff the lowercased model name contains the profile substring
and both configured fields are declared by the model. A pure function:
it has no side effects. Python `sub in name` is contiguous substring
containment. -/
def Profile.model_is_correct_type (p : Profile) (m : NoteModel) : Bool :=
  let model_name := pyLower m.name
  let fields := m.fieldNames
  decide (p.model_name_substr.data <:+: model_name.data)
    && decide (p.src_field ∈ fields)
    && decide (p.dst_field ∈ fields)

/-- The host media store: stored files, newest first. -/
def MediaStore := List (String × String)
deriving instance DecidableEq, Repr for MediaStore

/-- The external services `addKanji` consumes. `asciiFilename` models
`KanjiVG(character).ascii_filename`, with `none` standing for a raised
`InvalidCharacterError`; `coloredSvg` models
`self.kanji_colorizer.get_colored_svg(character)`, `writeData` models
`mw.col.media.writeData(filename, data)` (returning the stored filename
and the updated store), and `stripFn` models `mw.col.media.strip`; their
`.error` results stand for any other exception those calls may raise. -/
structure Env where
  stripFn : String → String
  asciiFilename : Char → Option String
  coloredSvg : Char → Except String String
  writeData : MediaStore → String → String → Except String (String × MediaStore)

/-- The inline image reference appended to `dst` for one stored file:
the formatted string from kanji_colorizer.py line 133. -/
def imgTag (fname : String) : String :=
  "<img src=\"" ++ fname ++ "\">"

/-- The per-character rendering loop of `Profile.addKanji`
(kanji_colorizer.py lines 123-133): for each character, compute the
filename (silently skipping the character on `InvalidCharacterError`),
render the SVG, write it to the media store, and append an image tag to
the accumulated markup; any other exception propagates. Returns the
accumulated markup together with the final media store. -/
def renderChars (env : Env) (media : MediaStore) : List Char → Except String (String × MediaStore)
  | [] => .ok ("", media)
  | c :: cs =>
    match env.asciiFilename c with
    | none => renderChars env media cs
    | some filename =>
      match env.coloredSvg c with
      | .error e => .error e
      | .ok svg =>
        match env.writeData media filename svg with
        | .error e => .error e
        | .ok (anki_fname, media1) =>
          match renderChars env media1 cs with
          | .error e => .error e
          | .ok (rest, media2) => .ok (imgTag anki_fname ++ rest, media2)

/-- The observable outcome of a successful `addKanji` call: the
(possibly updated) note, the returned dirty flag, the media store after
all writes, and whether `note.flush()` was called. -/
structure AddKanjiResult where
  note : Note
  flag : Bool
  media : MediaStore
  flushed : Bool
deriving DecidableEq, Repr

/-- The body of `Profile.addKanji` after the unrelated-field
short-circuit (kanji_colorizer.py lines 118-147). -/
def addKanjiMain (p : Profile) (env : Env) (media : MediaStore)
    (note : Note) (flag : Bool) : Except String AddKanjiResult :=
  match note.getField p.src_field with
  | none => .error "KeyError"
  | some srcRaw =>
    let srcTxt := env.stripFn srcRaw
    match note.getField p.dst_field with
    | none => .error "KeyError"
    | some oldDst =>
      match renderChars env media (p.characters_to_colorize srcTxt) with
      | .error e => .error e
      | .ok (dst, media1) =>
        if oldDst ≠ "" ∧ p.overwrite_dest = false then
          .ok ⟨note, flag, media1, false⟩
        else if dst ≠ oldDst ∧ dst ≠ "" then
          .ok ⟨note.setField p.dst_field dst, true, media1, note.id != 0⟩
        else
          .ok ⟨note, flag, media1, false⟩

/-- Embeds `Profile.addKanji` (kanji_colorizer.py lines 109-147). When
`currentFieldIndex` is given and names a field other than the configured
source field, the call returns the incoming flag immediately; an
out-of-range index models Python `IndexError`. -/
def Profile.addKanji (p : Profile) (env : Env) (media : MediaStore)
    (note : Note) (flag : Bool) (currentFieldIndex : Option Nat) :
    Except String AddKanjiResult :=
  match currentFieldIndex with
  | some i =>
    match note.model.flds.get? i with
    | none => .error "IndexError"
    | some fld =>
      if fld.name ≠ p.src_field then .ok ⟨note, flag, media, false⟩
      else addKanjiMain p env media note flag
  | none => addKanjiMain p env media note flag

/-! Spec-side definition (for comparison only): the behaviour §4.2
ascribes to the mixed/default character-selection policy, written from
the words of the spec. -/

/-- The mixed/default policy as the spec words it: the kanji
subsequence if any kanji is present, otherwise the full input. -/
def mixedFallbackSpec (s : String) : List Char :=
  let jk := s.data.filter is_kanji
  if jk = [] then s.data else jk

/-! Concrete fixtures used by witnesses and counterexamples. -/

/-- A profile with the "kanji" character-selection policy. -/
def kanjiProfile : Profile := ⟨"", "japanese", "Kanji", "Diagram", true, .str "kanji"⟩

/-- A profile with an unrecognized (null) character-selection policy,
hence the mixed/default behaviour. -/
def mixedProfile : Profile := ⟨"", "japanese", "Kanji", "Diagram", true, .null⟩

/-- A profile with the "all" character-selection policy. -/
def allProfile : Profile := ⟨"", "japanese", "Kanji", "Diagram", true, .str "all"⟩

/-- A profile whose overwrite policy is disabled. -/
def noOverwriteProfile : Profile := ⟨"", "japanese", "Kanji", "Diagram", false, .str "kanji"⟩

/-- A model named like the Core 2000 Japanese deck, declaring both
configured fields. -/
def jpModel : NoteModel := ⟨"Japanese (Core 2000)", [⟨"Kanji"⟩, ⟨"Diagram"⟩, ⟨"Meaning"⟩]⟩

/-- The same model without the source field. -/
def jpModelNoSrc : NoteModel := ⟨"Japanese (Core 2000)", [⟨"Diagram"⟩, ⟨"Meaning"⟩]⟩

/-- The same model without the destination field. -/
def jpModelNoDst : NoteModel := ⟨"Japanese (Core 2000)", [⟨"Kanji"⟩, ⟨"Meaning"⟩]⟩

/-- A persisted note with one kanji in the source field and an empty
destination field. -/
def testNote : Note := ⟨[("Kanji", "漢"), ("Diagram", ""), ("Meaning", "china")], 5, jpModel⟩

/-- A persisted note whose destination field already holds content. -/
def filledNote : Note := ⟨[("Kanji", "漢"), ("Diagram", "old"), ("Meaning", "china")], 5, jpModel⟩

/-- A fresh note whose source field holds a single non-kanji character. -/
def errNote : Note := ⟨[("Kanji", "z"), ("Diagram", "")], 0, jpModel⟩

/-- A well-behaved environment: every kanji has a filename, rendering
and media writes succeed, and each write prepends to the store. -/
def testEnv : Env :=
  ⟨id,
   fun c => if is_kanji c then some (toString c.toNat ++ ".svg") else none,
   fun c => .ok ("svg:" ++ toString c.toNat),
   fun media f d => .ok (f, (f, d) :: media)⟩

/-- An environment exhibiting each failure mode: the character `x` has
no filename (`InvalidCharacterError`), rendering `y` raises, and every
media write raises. -/
def errEnv : Env :=
  ⟨id,
   fun c => if c = 'x' then none else some (toString c.toNat ++ ".svg"),
   fun c => if c = 'y' then .error "RenderError" else .ok "svg",
   fun _ _ _ => .error "WriteError"⟩

/-- A configuration record holding only the renderer option keys: the
four targeting keys are absent (and so default), as is
`diagrammed-characters`. -/
def rendererOnlyConfig : Config :=
  [("mode", .str "spectrum"), ("group-mode", .bool false),
   ("saturation", .int 95), ("value", .int 75), ("image-size", .int 327)]

/-- The renderer option keys plus `diagrammed-characters`, with the four
targeting keys still absent. -/
def minimalConfig : Config :=
  [("mode", .str "spectrum"), ("group-mode", .bool false),
   ("saturation", .int 95), ("value", .int 75), ("image-size", .int 327),
   ("diagrammed-characters", .str "kanji")]

/-- The profile `minimalConfig` parses to. -/
def minimalProfile : Profile :=
  ⟨"--mode spectrum --saturation 95 --value 75 --image-size 327",
   "japanese", "Kanji", "Diagram", true, .str "kanji"⟩

/-! Helper lemmas: the three branches of `characters_to_colorize`. -/

/-- Branch lemma: the "all" policy returns every character. -/
theorem ctc_all (p : Profile) (s : String)
    (h : p.diagrammed_characters = .str "all") :
    p.characters_to_colorize s = s.data := by
  unfold Profile.characters_to_colorize
  rw [if_pos h]

/-- Branch lemma: the "kanji" policy filters by `is_kanji`. -/
theorem ctc_kanji (p : Profile) (s : String)
    (h : p.diagrammed_characters = .str "kanji") :
    p.characters_to_colorize s = s.data.filter is_kanji := by
  unfold Profile.characters_to_colorize
  rw [if_neg (h ▸ by decide), if_pos h]

/-- Branch lemma: any other policy value takes the fallback branch. -/
theorem ctc_default (p : Profile) (s : String)
    (h1 : p.diagrammed_characters ≠ .str "all")
    (h2 : p.diagrammed_characters ≠ .str "kanji") :
    p.characters_to_colorize s =
      if (s.data.filter is_kanji).length ≥ 1 then s.data.filter is_kanji
      else s.data := by
  unfold Profile.characters_to_colorize
  rw [if_neg h1, if_neg h2]

/-- C1: with the "kanji" character-selection policy,
`characters_to_colorize` returns exactly the characters of the input
whose code point lies in the inclusive range [19968, 40879], as a
subsequence of the input in original order. -/
theorem c1_kanji_policy_filters (p : Profile) (s : String)
    (h : p.diagrammed_characters = .str "kanji") :
    p.characters_to_colorize s
      = s.data.filter (fun c => decide (19968 ≤ c.toNat ∧ c.toNat ≤ 40879)) ∧
    (p.characters_to_colorize s).Sublist s.data := by
  rw [ctc_kanji p s h]
  refine ⟨List.filter_congr fun c _ => ?_, List.filter_sublist s.data⟩
  simp [is_kanji]

/-- C1 witness: the theorem applied to a concrete profile and the
string "a漢b". -/
theorem c1_kanji_policy_filters_witness :
    kanjiProfile.diagrammed_characters = .str "kanji" ∧
    (kanjiProfile.characters_to_colorize "a漢b"
        = "a漢b".data.filter (fun c => decide (19968 ≤ c.toNat ∧ c.toNat ≤ 40879)) ∧
      (kanjiProfile.characters_to_colorize "a漢b").Sublist "a漢b".data) :=
  ⟨rfl, c1_kanji_policy_filters kanjiProfile "a漢b" rfl⟩

/-- C2: under the mixed/default policy, if some character of the input
is kanji the result is the kanji subsequence, and if no character is
kanji the result is the full character list unchanged, while the
"kanji" policy returns the empty list on such input. -/
theorem c2_mixed_policy (p q : Profile) (s : String)
    (hp1 : p.diagrammed_characters ≠ .str "all")
    (hp2 : p.diagrammed_characters ≠ .str "kanji")
    (hq : q.diagrammed_characters = .str "kanji") :
    ((∃ c ∈ s.data, is_kanji c = true) →
        p.characters_to_colorize s = s.data.filter is_kanji) ∧
    ((∀ c ∈ s.data, is_kanji c = false) →
        p.characters_to_colorize s = s.data ∧ q.characters_to_colorize s = []) := by
  rw [ctc_default p s hp1 hp2, ctc_kanji q s hq]
  constructor
  · rintro ⟨c, hc, hk⟩
    have hmem : c ∈ s.data.filter is_kanji := List.mem_filter.mpr ⟨hc, hk⟩
    have hpos : (s.data.filter is_kanji).length ≥ 1 :=
      List.length_pos.mpr (List.ne_nil_of_mem hmem)
    rw [if_pos hpos]
  · intro hnone
    have hnil : s.data.filter is_kanji = [] :=
      List.filter_eq_nil_iff.mpr fun c hc => by rw [hnone c hc]; exact Bool.false_ne_true
    rw [hnil]
    exact ⟨by rw [if_neg (by simp)], rfl⟩

/-- C2 witness: the theorem applied to concrete profiles and the
kanji-free string "abc". -/
theorem c2_mixed_policy_witness :
    mixedProfile.diagrammed_characters ≠ .str "all" ∧
    mixedProfile.diagrammed_characters ≠ .str "kanji" ∧
    kanjiProfile.diagrammed_characters = .str "kanji" ∧
    (((∃ c ∈ "abc".data, is_kanji c = true) →
        mixedProfile.characters_to_colorize "abc" = "abc".data.filter is_kanji) ∧
      ((∀ c ∈ "abc".data, is_kanji c = false) →
        mixedProfile.characters_to_colorize "abc" = "abc".data ∧
        kanjiProfile.characters_to_colorize "abc" = [])) :=
  ⟨by decide, by decide, rfl,
    c2_mixed_policy mixedProfile kanjiProfile "abc" (by decide) (by decide) rfl⟩

/-- C10: any policy value other than the strings "all" and "kanji"
(misspellings, null, wrong types) behaves exactly as the mixed/default
policy described by `mixedFallbackSpec`; no validation rejects it. -/
theorem c10_unrecognized_policy (p : Profile) (s : String)
    (h1 : p.diagrammed_characters ≠ .str "all")
    (h2 : p.diagrammed_characters ≠ .str "kanji") :
    p.characters_to_colorize s = mixedFallbackSpec s := by
  rw [ctc_default p s h1 h2]
  show _ = if s.data.filter is_kanji = [] then s.data else s.data.filter is_kanji
  rcases eq_or_ne (s.data.filter is_kanji) [] with hnil | hne
  · rw [hnil]
    simp
  · rw [if_pos (show (s.data.filter is_kanji).length ≥ 1 from List.length_pos.mpr hne),
      if_neg hne]

/-- C10 witness: the theorem applied to a profile with a null policy
value and the string "a漢b". -/
theorem c10_unrecognized_policy_witness :
    mixedProfile.diagrammed_characters ≠ .str "all" ∧
    mixedProfile.diagrammed_characters ≠ .str "kanji" ∧
    mixedProfile.characters_to_colorize "a漢b" = mixedFallbackSpec "a漢b" :=
  ⟨by decide, by decide,
    c10_unrecognized_policy mixedProfile "a漢b" (by decide) (by decide)⟩

/-- C6: `model_is_correct_type` is true exactly when the lowercased
model name contains the profile substring and both configured field
names are among the model fields; the Core 2000 example matches while
models missing either field do not. The function is pure (a plain
`Bool`-valued function), so it has no side effects. -/
theorem c6_model_matching :
    (∀ (p : Profile) (m : NoteModel),
        p.model_is_correct_type m = true ↔
          (p.model_name_substr.data <:+: (pyLower m.name).data ∧
           p.src_field ∈ m.fieldNames ∧ p.dst_field ∈ m.fieldNames)) ∧
    kanjiProfile.model_is_correct_type jpModel = true ∧
    kanjiProfile.model_is_correct_type jpModelNoSrc = false ∧
    kanjiProfile.model_is_correct_type jpModelNoDst = false := by
  refine ⟨fun p m => ?_, by decide, by decide, by decide⟩
  simp [Profile.model_is_correct_type, and_assoc]

/-- C5 counterexample: a configuration record holding every renderer
option key but lacking `diagrammed-characters` makes `Profile`
construction raise `KeyError`, refuting that construction never rejects
or errors on a malformed record. -/
theorem c5_missing_key_rejects :
    mkProfile rendererOnlyConfig = .error "KeyError" := by rfl

/-- C5 (amended): when `Profile` construction succeeds, the four
targeting keys that are missing or of the wrong type were replaced by
their documented defaults (model substring "japanese", src-field
"Kanji", dst-field "Diagram", overwrite true); but construction
requires `diagrammed-characters` (and the renderer option keys) to be
present, so it does reject records lacking them. -/
theorem c5_defaults (data : Config) (p : Profile)
    (h : mkProfile data = .ok p) :
    ((∀ s, data.lookup "model" ≠ some (.str s)) → p.model_name_substr = "japanese") ∧
    ((∀ s, data.lookup "src-field" ≠ some (.str s)) → p.src_field = "Kanji") ∧
    ((∀ s, data.lookup "dst-field" ≠ some (.str s)) → p.dst_field = "Diagram") ∧
    ((∀ b, data.lookup "overwrite-dest" ≠ some (.bool b)) → p.overwrite_dest = true) ∧
    data.lookup "diagrammed-characters" ≠ none := by
  unfold mkProfile at h
  cases hmk : make_kanji_colorizer data with
  | error e => rw [hmk] at h; exact Except.noConfusion h
  | ok cfg =>
    rw [hmk] at h
    cases hdc : data.lookup "diagrammed-characters" with
    | none => rw [hdc] at h; exact Except.noConfusion h
    | some dc =>
      rw [hdc] at h
      injection h with h
      subst h
      refine ⟨?_, ?_, ?_, ?_, by simp [hdc]⟩
      · intro hall
        show parse_model_name_substr data = "japanese"
        unfold parse_model_name_substr
        cases hm : data.lookup "model" with
        | none => rfl
        | some v => cases v with
          | str s => exact absurd hm (hall s)
          | bool b => rfl
          | int n => rfl
          | null => rfl
      · intro hall
        show parse_src_field data = "Kanji"
        unfold parse_src_field
        cases hm : data.lookup "src-field" with
        | none => rfl
        | some v => cases v with
          | str s => exact absurd hm (hall s)
          | bool b => rfl
          | int n => rfl
          | null => rfl
      · intro hall
        show parse_dst_field data = "Diagram"
        unfold parse_dst_field
        cases hm : data.lookup "dst-field" with
        | none => rfl
        | some v => cases v with
          | str s => exact absurd hm (hall s)
          | bool b => rfl
          | int n => rfl
          | null => rfl
      · intro hall
        show parse_overwrite_dest data = true
        unfold parse_overwrite_dest
        cases hm : data.lookup "overwrite-dest" with
        | none => rfl
        | some v => cases v with
          | str s => rfl
          | bool b => exact absurd hm (hall b)
          | int n => rfl
          | null => rfl

/-- C5 witness: the amended theorem applied to a configuration with all
required keys and none of the four targeting keys. -/
theorem c5_defaults_witness :
    mkProfile minimalConfig = .ok minimalProfile ∧
    (((∀ s, minimalConfig.lookup "model" ≠ some (.str s)) →
        minimalProfile.model_name_substr = "japanese") ∧
      ((∀ s, minimalConfig.lookup "src-field" ≠ some (.str s)) →
        minimalProfile.src_field = "Kanji") ∧
      ((∀ s, minimalConfig.lookup "dst-field" ≠ some (.str s)) →
        minimalProfile.dst_field = "Diagram") ∧
      ((∀ b, minimalConfig.lookup "overwrite-dest" ≠ some (.bool b)) →
        minimalProfile.overwrite_dest = true) ∧
      minimalConfig.lookup "diagrammed-characters" ≠ none) :=
  ⟨by rfl, c5_defaults minimalConfig minimalProfile (by rfl)⟩

/-- Helper: a successful `addKanjiMain` run under a non-empty
destination and disabled overwrite leaves the note and flag unchanged. -/
theorem addKanjiMain_no_overwrite (p : Profile) (env : Env) (media : MediaStore)
    (note : Note) (flag : Bool) (oldDst : String) (r : AddKanjiResult)
    (hdst : note.getField p.dst_field = some oldDst)
    (hne : oldDst ≠ "")
    (hov : p.overwrite_dest = false)
    (hok : addKanjiMain p env media note flag = .ok r) :
    r.note = note ∧ r.flag = flag := by
  unfold addKanjiMain at hok
  cases hsrc : note.getField p.src_field with
  | none => rw [hsrc] at hok; exact Except.noConfusion hok
  | some srcRaw =>
    simp only [hsrc, hdst] at hok
    cases hr : renderChars env media (p.characters_to_colorize (env.stripFn srcRaw)) with
    | error e => rw [hr] at hok; exact Except.noConfusion hok
    | ok pr =>
      obtain ⟨dst, media1⟩ := pr
      simp only [hr] at hok
      rw [if_pos ⟨hne, hov⟩] at hok
      injection hok with h
      rw [← h]
      exact ⟨rfl, rfl⟩

/-- C3: with overwrite disabled and a non-empty destination field, a
successful `addKanji` call returns the incoming flag unchanged and
leaves the note (in particular the destination field) unchanged,
whatever markup the rendering loop produced. -/
theorem c3_no_overwrite (p : Profile) (env : Env) (media : MediaStore)
    (note : Note) (flag : Bool) (cfi : Option Nat) (oldDst : String)
    (r : AddKanjiResult)
    (hdst : note.getField p.dst_field = some oldDst)
    (hne : oldDst ≠ "")
    (hov : p.overwrite_dest = false)
    (hok : p.addKanji env media note flag cfi = .ok r) :
    r.note = note ∧ r.flag = flag := by
  cases cfi with
  | none =>
    unfold Profile.addKanji at hok
    exact addKanjiMain_no_overwrite p env media note flag oldDst r hdst hne hov hok
  | some i =>
    simp only [Profile.addKanji] at hok
    cases hget : note.model.flds.get? i with
    | none => rw [hget] at hok; exact Except.noConfusion hok
    | some fld =>
      simp only [hget] at hok
      by_cases hname : fld.name ≠ p.src_field
      · rw [if_pos hname] at hok
        injection hok with h
        rw [← h]
        exact ⟨rfl, rfl⟩
      · rw [if_neg hname] at hok
        exact addKanjiMain_no_overwrite p env media note flag oldDst r hdst hne hov hok

/-- C3 witness: the theorem applied to a concrete profile with
overwrite disabled and a note whose destination field holds "old". -/
theorem c3_no_overwrite_witness :
    filledNote.getField noOverwriteProfile.dst_field = some "old" ∧
    ("old" : String) ≠ "" ∧
    noOverwriteProfile.overwrite_dest = false ∧
    noOverwriteProfile.addKanji testEnv [] filledNote false none =
      .ok ⟨filledNote, false, [("28450.svg", "svg:28450")], false⟩ ∧
    AddKanjiResult.note ⟨filledNote, false, [("28450.svg", "svg:28450")], false⟩
        = filledNote ∧
    AddKanjiResult.flag ⟨filledNote, false, [("28450.svg", "svg:28450")], false⟩
        = false :=
  ⟨rfl, by decide, rfl, by rfl,
    (c3_no_overwrite noOverwriteProfile testEnv [] filledNote false none "old"
        ⟨filledNote, false, [("28450.svg", "svg:28450")], false⟩
        rfl (by decide) rfl (by rfl)).1,
    (c3_no_overwrite noOverwriteProfile testEnv [] filledNote false none "old"
        ⟨filledNote, false, [("28450.svg", "svg:28450")], false⟩
        rfl (by decide) rfl (by rfl)).2⟩

/-- C8: when the exited-field index names a model field other than the
configured source field, `addKanji` returns the incoming flag at once,
leaving the note and the media store untouched (and calling neither the
renderer nor the host storage, as the returned state shows). -/
theorem c8_unrelated_field (p : Profile) (env : Env) (media : MediaStore)
    (note : Note) (flag : Bool) (i : Nat) (fld : ModelField)
    (hget : note.model.flds.get? i = some fld)
    (hne : fld.name ≠ p.src_field) :
    p.addKanji env media note flag (some i) = .ok ⟨note, flag, media, false⟩ := by
  unfold Profile.addKanji
  simp only [hget]
  rw [if_pos hne]

/-- C8 witness: the theorem applied at field index 2 ("Meaning"), which
differs from the configured source field "Kanji". -/
theorem c8_unrelated_field_witness :
    jpModel.flds.get? 2 = some ⟨"Meaning"⟩ ∧
    ("Meaning" : String) ≠ kanjiProfile.src_field ∧
    kanjiProfile.addKanji testEnv [] testNote true (some 2) =
      .ok ⟨testNote, true, [], false⟩ :=
  ⟨rfl, by decide,
    c8_unrelated_field kanjiProfile testEnv [] testNote true 2 ⟨"Meaning"⟩
      rfl (by decide)⟩

/-- C4: with overwrite enabled, when the rendering loop succeeds with
markup `dst`: if `dst` is non-empty and differs from the current
destination value, `addKanji` writes `dst` into the destination field,
returns true, and flushes exactly when the note is persisted
(`note.id != 0`); if `dst` is empty, no field is mutated and the
incoming flag is returned unchanged. -/
theorem c4_overwrite_enabled (p : Profile) (env : Env)
    (media media1 : MediaStore) (note : Note) (flag : Bool)
    (srcRaw oldDst dst : String)
    (hov : p.overwrite_dest = true)
    (hsrc : note.getField p.src_field = some srcRaw)
    (hdst : note.getField p.dst_field = some oldDst)
    (hrender : renderChars env media (p.characters_to_colorize (env.stripFn srcRaw))
        = .ok (dst, media1)) :
    (dst ≠ "" → dst ≠ oldDst →
        p.addKanji env media note flag none =
          .ok ⟨note.setField p.dst_field dst, true, media1, note.id != 0⟩) ∧
    (dst = "" →
        p.addKanji env media note flag none = .ok ⟨note, flag, media1, false⟩) := by
  constructor
  · intro hdne hdiff
    unfold Profile.addKanji addKanjiMain
    simp only [hsrc, hdst, hrender]
    rw [if_neg (by simp [hov]), if_pos ⟨hdiff, hdne⟩]
  · intro hempty
    subst hempty
    unfold Profile.addKanji addKanjiMain
    simp only [hsrc, hdst, hrender]
    rw [if_neg (by simp [hov]), if_neg (by simp)]

/-- C4 witness: the theorem applied to a persisted note whose source
field holds one kanji and whose destination field is empty. -/
theorem c4_overwrite_enabled_witness :
    kanjiProfile.overwrite_dest = true ∧
    testNote.getField kanjiProfile.src_field = some "漢" ∧
    testNote.getField kanjiProfile.dst_field = some "" ∧
    renderChars testEnv [] (kanjiProfile.characters_to_colorize (testEnv.stripFn "漢"))
      = .ok ("<img src=\"28450.svg\">", [("28450.svg", "svg:28450")]) ∧
    ((("<img src=\"28450.svg\">" : String) ≠ "" →
        ("<img src=\"28450.svg\">" : String) ≠ "" →
        kanjiProfile.addKanji testEnv [] testNote false none =
          .ok ⟨testNote.setField kanjiProfile.dst_field "<img src=\"28450.svg\">",
               true, [("28450.svg", "svg:28450")], testNote.id != 0⟩) ∧
      (("<img src=\"28450.svg\">" : String) = "" →
        kanjiProfile.addKanji testEnv [] testNote false none =
          .ok ⟨testNote, false, [("28450.svg", "svg:28450")], false⟩)) :=
  ⟨rfl, rfl, rfl, by rfl,
    c4_overwrite_enabled kanjiProfile testEnv [] [("28450.svg", "svg:28450")]
      testNote false "漢" "" "<img src=\"28450.svg\">" rfl rfl rfl (by rfl)⟩

/-- C9: even with overwrite disabled and a non-empty destination field,
a successful `addKanji` call returns the media store produced by the
rendering loop over every selected character, not the incoming store:
the no-mutation guard protects only the note field, not the media
store, because it is evaluated after the loop. -/
theorem c9_media_written_despite_no_overwrite (p : Profile) (env : Env)
    (media media1 : MediaStore) (note : Note) (flag : Bool)
    (srcRaw oldDst dst : String)
    (hov : p.overwrite_dest = false)
    (hsrc : note.getField p.src_field = some srcRaw)
    (hdst : note.getField p.dst_field = some oldDst)
    (hne : oldDst ≠ "")
    (hrender : renderChars env media (p.characters_to_colorize (env.stripFn srcRaw))
        = .ok (dst, media1)) :
    p.addKanji env media note flag none = .ok ⟨note, flag, media1, false⟩ := by
  unfold Profile.addKanji addKanjiMain
  simp only [hsrc, hdst, hrender]
  rw [if_pos ⟨hne, hov⟩]

/-- C9 witness: the theorem at a note with a filled destination field
and a profile with overwrite disabled; the returned store differs from
the incoming empty store, showing the write happened. -/
theorem c9_media_written_witness :
    noOverwriteProfile.overwrite_dest = false ∧
    filledNote.getField noOverwriteProfile.src_field = some "漢" ∧
    filledNote.getField noOverwriteProfile.dst_field = some "old" ∧
    ("old" : String) ≠ "" ∧
    renderChars testEnv [] (noOverwriteProfile.characters_to_colorize (testEnv.stripFn "漢"))
      = .ok ("<img src=\"28450.svg\">", [("28450.svg", "svg:28450")]) ∧
    noOverwriteProfile.addKanji testEnv [] filledNote false none =
      .ok ⟨filledNote, false, [("28450.svg", "svg:28450")], false⟩ ∧
    ([("28450.svg", "svg:28450")] : MediaStore) ≠ ([] : MediaStore) :=
  ⟨rfl, rfl, rfl, by decide, by rfl,
    c9_media_written_despite_no_overwrite noOverwriteProfile testEnv []
      [("28450.svg", "svg:28450")] filledNote false "漢" "old"
      "<img src=\"28450.svg\">" rfl rfl rfl (by decide) (by rfl),
    by decide⟩

/-- C7: in the rendering loop, a character whose filename computation
raises `InvalidCharacterError` is skipped silently and contributes
nothing, while a rendering error or a media-write error is not caught
and propagates; `addKanji` likewise propagates any loop error to the
caller. -/
theorem c7_error_handling (p : Profile) (env : Env) (media : MediaStore)
    (note : Note) (flag : Bool) (cSkip cSvgErr cWriteErr : Char)
    (cs : List Char) (fnSvgErr fnWriteErr svgOk eSvg eWrite eLoop srcRaw oldDst : String)
    (hskip : env.asciiFilename cSkip = none)
    (ha2 : env.asciiFilename cSvgErr = some fnSvgErr)
    (hb2 : env.coloredSvg cSvgErr = .error eSvg)
    (ha3 : env.asciiFilename cWriteErr = some fnWriteErr)
    (hb3 : env.coloredSvg cWriteErr = .ok svgOk)
    (hc3 : env.writeData media fnWriteErr svgOk = .error eWrite)
    (hsrc : note.getField p.src_field = some srcRaw)
    (hdst : note.getField p.dst_field = some oldDst)
    (hrender : renderChars env media (p.characters_to_colorize (env.stripFn srcRaw))
        = .error eLoop) :
    renderChars env media (cSkip :: cs) = renderChars env media cs ∧
    renderChars env media (cSvgErr :: cs) = .error eSvg ∧
    renderChars env media (cWriteErr :: cs) = .error eWrite ∧
    p.addKanji env media note flag none = .error eLoop := by
  refine ⟨?_, ?_, ?_, ?_⟩
  · rw [renderChars]
    simp only [hskip]
  · rw [renderChars]
    simp only [ha2, hb2]
  · rw [renderChars]
    simp only [ha3, hb3, hc3]
  · unfold Profile.addKanji addKanjiMain
    simp only [hsrc, hdst, hrender]

/-- C7 witness: the theorem applied to `errEnv`, where the character x
has no filename, rendering y raises, writing z raises, and the note
source field "z" makes the whole loop raise the write error. -/
theorem c7_error_handling_witness :
    errEnv.asciiFilename 'x' = none ∧
    errEnv.asciiFilename 'y' = some "121.svg" ∧
    errEnv.coloredSvg 'y' = .error "RenderError" ∧
    errEnv.asciiFilename 'z' = some "122.svg" ∧
    errEnv.coloredSvg 'z' = .ok "svg" ∧
    errEnv.writeData [] "122.svg" "svg" = .error "WriteError" ∧
    errNote.getField allProfile.src_field = some "z" ∧
    errNote.getField allProfile.dst_field = some "" ∧
    renderChars errEnv [] (allProfile.characters_to_colorize (errEnv.stripFn "z"))
      = .error "WriteError" ∧
    (renderChars errEnv [] ['x'] = renderChars errEnv [] [] ∧
      renderChars errEnv [] ['y'] = .error "RenderError" ∧
      renderChars errEnv [] ['z'] = .error "WriteError" ∧
      allProfile.addKanji errEnv [] errNote false none = .error "WriteError") :=
  ⟨rfl, by rfl, by rfl, by rfl, by rfl, rfl, rfl, rfl, by rfl,
    c7_error_handling allProfile errEnv [] errNote false 'x' 'y' 'z' []
      "121.svg" "122.svg" "svg" "RenderError" "WriteError" "WriteError" "z" ""
      rfl (by rfl) (by rfl) (by rfl) (by rfl) rfl rfl rfl (by rfl)⟩

end KanjiColorize
